import Mathlib

/-!
# Shallow embedding of the Turnibeta shift-swap application

This file embeds, in Lean 4, the decision logic of the weekly shift-schedule
application: the effective-shift resolver and swap loading/deduplication
(`src/components/shifts/ShiftList.tsx`), the cell-click swap-creation flow and
the swap response/cancel handlers (same file), the matrix upload validator and
persistence routine (`src/components/shifts/MatrixUploader.tsx`), and the
row-level-security policies of the swap table
(`supabase/migrations/20250329174201_velvet_morning.sql`), which are the only
server-side authorization checks the update path has.

Conventions: TypeScript strings are `String`, timestamps are `Nat`
(`created_at`, larger = more recent), database tables are Lean lists in
insertion order, and each fallible handler returns the new store together with
an `Option String` user-visible error, mirroring the `setError` calls of the
source.  Matrix cells are read with a default of `""` exactly where the
source's out-of-bounds indexing would give `undefined`.
-/

/-- Lifecycle status of a swap request (`status` column of `shift_swaps_v2`;
union type in `ShiftList.tsx` line 16). -/
inductive SwapStatus
  | pending
  | accepted
  | rejected
  | cancelled
  deriving DecidableEq, Repr

/-- A raw row of the `shift_swaps_v2` table, as fetched by `loadSwaps`
(`ShiftList.tsx` lines 157-189).  `created_at` is the insertion timestamp. -/
structure SwapRow where
  id : String
  date : String
  from_employee : String
  to_employee : String
  from_shift : String
  to_shift : String
  status : SwapStatus
  created_at : Nat
  deriving DecidableEq, Repr

/-- The client-side `SwapRequest` record (`ShiftList.tsx` lines 9-17), the
shape produced by `loadSwaps`' mapping step. -/
structure SwapRequest where
  id : String
  date : String
  fromEmployee : String
  toEmployee : String
  fromShift : String
  toShift : String
  status : SwapStatus
  deriving DecidableEq, Repr

/-- Field mapping applied by `loadSwaps` (`ShiftList.tsx` lines 176-184). -/
def toSwapRequest (s : SwapRow) : SwapRequest :=
  { id := s.id
    date := s.date
    fromEmployee := s.from_employee
    toEmployee := s.to_employee
    fromShift := s.from_shift
    toShift := s.to_shift
    status := s.status }

/-- The deduplication key built by `loadSwaps`
(`ShiftList.tsx` line 169): the JavaScript template string
`date + "-" + from_employee + "-" + to_employee`. -/
def dedupKey (s : SwapRow) : String :=
  s.date ++ "-" ++ s.from_employee ++ "-" ++ s.to_employee

/-- The `reduce`/`Object.values` deduplication of `loadSwaps`
(`ShiftList.tsx` lines 168-175): scan the fetched rows in order, keep the
first row seen for each `dedupKey`, preserving first-occurrence order
(JavaScript object keys containing dashes enumerate in insertion order). -/
def dedupAux : List SwapRow → List String → List SwapRow
  | [], _ => []
  | s :: rest, seen =>
      if dedupKey s ∈ seen then dedupAux rest seen
      else s :: dedupAux rest (dedupKey s :: seen)

/-- `loadSwaps` (`ShiftList.tsx` lines 157-189): the rows arrive from the
store ordered by `created_at` descending (the `.order` clause, line 162); the
function deduplicates them and maps them to `SwapRequest`s.  The descending
order is a hypothesis of the theorems below, not re-established here. -/
def loadSwaps (rows : List SwapRow) : List SwapRequest :=
  (dedupAux rows []).map toSwapRequest

/-- Predicate of the `swaps.find` call in `getFinalShift`
(`ShiftList.tsx` lines 201-205): an accepted swap on the given date that
involves the given employee on either side. -/
def swapMatches (employeeCode date : String) (s : SwapRequest) : Bool :=
  s.status == .accepted && s.date == date &&
    (s.fromEmployee == employeeCode || s.toEmployee == employeeCode)

/-- Core of the effective-shift resolver `getFinalShift`
(`ShiftList.tsx` lines 200-216), parameterised by the three values the source
reads from the matrix (`baseShift`, `employeeCode`, and the already
`DD/MM/YYYY → YYYY-MM-DD` formatted date).  The first matching accepted swap
is taken; the requester gets `toShift`, the counterpart gets `fromShift`. -/
def getFinalShiftCore (baseShift employeeCode date : String)
    (swaps : List SwapRequest) : String :=
  match swaps.find? (swapMatches employeeCode date) with
  | none => baseShift
  | some swap => if swap.fromEmployee == employeeCode then swap.toShift else swap.fromShift

/-- JavaScript `string.split(sep)` for a one-character separator, on the
character list of the string: split at every occurrence, keeping empty
pieces. -/
def splitOnChar (c : Char) : List Char → List (List Char)
  | [] => [[]]
  | x :: xs =>
      let r := splitOnChar c xs
      if x == c then [] :: r
      else
        match r with
        | [] => [[x]]
        | y :: ys => (x :: y) :: ys

/-- JavaScript `array.join(sep)`. -/
def joinWith (sep : String) : List String → String
  | [] => ""
  | [x] => x
  | x :: xs => x ++ sep ++ joinWith sep xs

/-- `date.split('/').reverse().join('-')` (`ShiftList.tsx` line 198 and
lines 310, 452): display date `DD/MM/YYYY` to storage date `YYYY-MM-DD`. -/
def formatToISO (d : String) : String :=
  joinWith "-" (((splitOnChar '/' d.data).map (fun l => String.mk l)).reverse)

/-- The weekly display matrix (`ShiftList.tsx` line 8): row 0 holds the
header dates, row 1 the day names, and each later row an employee code in
column 0 followed by that employee's shift codes. -/
abbrev ShiftMatrix := List (List String)

/-- Matrix cell access `matrix[row][col]`, with `""` where the source's
indexing would give `undefined`. -/
def getCell (m : ShiftMatrix) (row col : Nat) : String :=
  (m.getD row []).getD col ""

/-- `getFinalShift` (`ShiftList.tsx` lines 191-217) over the display matrix:
reads the date from row 0, the employee code from column 0 and the base shift
from the cell, returns the base for column 0, otherwise resolves through the
swap list. -/
def getFinalShift (m : ShiftMatrix) (swaps : List SwapRequest) (row col : Nat) : String :=
  let date := getCell m 0 col
  let employeeCode := getCell m row 0
  let baseShift := getCell m row col
  if col == 0 then baseShift
  else getFinalShiftCore baseShift employeeCode (formatToISO date) swaps

/-- Factoring lemma: away from column 0, `getFinalShift` is the parameterised
resolver core applied to the cell's own data. -/
theorem getFinalShift_eq_core (m : ShiftMatrix) (swaps : List SwapRequest) (row col : Nat)
    (h : col ≠ 0) :
    getFinalShift m swaps row col =
      getFinalShiftCore (getCell m row col) (getCell m row 0)
        (formatToISO (getCell m 0 col)) swaps := by
  unfold getFinalShift
  simp [h]

/-! ## C9: resolver identity law -/

/-- C9: if no swap in the list is an accepted swap on the target date
involving the employee (in particular if the list is empty), the resolver
returns the base shift unchanged. -/
theorem C9_resolver_identity (baseShift employeeCode date : String)
    (swaps : List SwapRequest)
    (h : ∀ s ∈ swaps, ¬ (s.status = .accepted ∧ s.date = date ∧
        (s.fromEmployee = employeeCode ∨ s.toEmployee = employeeCode))) :
    getFinalShiftCore baseShift employeeCode date swaps = baseShift := by
  unfold getFinalShiftCore
  have hfind : swaps.find? (swapMatches employeeCode date) = none := by
    rw [List.find?_eq_none]
    intro s hs
    have := h s hs
    simp only [swapMatches, Bool.and_eq_true, Bool.or_eq_true, beq_iff_eq] at *
    intro hc
    exact this ⟨hc.1.1, hc.1.2, hc.2⟩
  rw [hfind]

/-- Witness for C9 at the empty swap list. -/
theorem C9_resolver_identity_witness :
    getFinalShiftCore "8.00" "BO" "2024-05-12" [] = "8.00" :=
  C9_resolver_identity "8.00" "BO" "2024-05-12" [] (by intro s hs; cases hs)

/-! ## C1: resolver symmetry -/

/-- An accepted swap that an admin can create by pairing two cells of the same
matrix row across two dates (`handleCellClick`): both employee codes coincide.
Used to refute the unconditional symmetry claim. -/
def c1DegenerateSwap : SwapRequest :=
  { id := "s1", date := "2024-05-12", fromEmployee := "AA", toEmployee := "AA",
    fromShift := "RI", toShift := "NL", status := .accepted }

/-- C1 counterexample: for an accepted swap whose two employee codes are equal
(`A = B = "AA"`, `fromShift = "RI"`, `toShift = "NL"`), resolving for employee
`B` with base shift `toShift` returns `toShift` (the `fromEmployee` branch of
`getFinalShift` fires first), not `fromShift` as the claim requires. -/
theorem C1_counterexample :
    c1DegenerateSwap.status = .accepted ∧
    getFinalShiftCore c1DegenerateSwap.toShift c1DegenerateSwap.toEmployee
      c1DegenerateSwap.date [c1DegenerateSwap] ≠ c1DegenerateSwap.fromShift := by
  constructor
  · rfl
  · decide

/-- C1 amended: for an accepted swap with `fromEmployeeCode = A`,
`toEmployeeCode = B`, `fromShift = X`, `toShift = Y` on date `D`, resolving for
`A` with base `X` gives `Y` unconditionally, and resolving for `B` with base
`Y` gives `X` provided `A ≠ B` (when `A = B` the `fromEmployee` branch wins and
both queries return `Y`). -/
theorem C1_resolver_symmetry_amended (s : SwapRequest) (hacc : s.status = .accepted) :
    getFinalShiftCore s.fromShift s.fromEmployee s.date [s] = s.toShift ∧
    (s.fromEmployee ≠ s.toEmployee →
      getFinalShiftCore s.toShift s.toEmployee s.date [s] = s.fromShift) := by
  have hm : ∀ emp, (s.fromEmployee = emp ∨ s.toEmployee = emp) →
      swapMatches emp s.date s = true := by
    intro emp h
    simp only [swapMatches, hacc, Bool.and_eq_true, Bool.or_eq_true, beq_iff_eq,
      beq_self_eq_true, true_and, and_true]
    exact h
  constructor
  · unfold getFinalShiftCore
    rw [List.find?_cons_of_pos _ (hm s.fromEmployee (Or.inl rfl))]
    simp
  · intro hne
    unfold getFinalShiftCore
    rw [List.find?_cons_of_pos _ (hm s.toEmployee (Or.inr rfl))]
    simp [hne]

/-- Witness for C1's amended theorem on a concrete accepted swap between two
distinct employees. -/
theorem C1_resolver_symmetry_witness :
    getFinalShiftCore "8.00" "BO" "2024-05-12"
      [{ id := "s2", date := "2024-05-12", fromEmployee := "BO", toEmployee := "AA",
         fromShift := "8.00", toShift := "11.30", status := .accepted }] = "11.30" ∧
    getFinalShiftCore "11.30" "AA" "2024-05-12"
      [{ id := "s2", date := "2024-05-12", fromEmployee := "BO", toEmployee := "AA",
         fromShift := "8.00", toShift := "11.30", status := .accepted }] = "8.00" := by
  have h := C1_resolver_symmetry_amended
    { id := "s2", date := "2024-05-12", fromEmployee := "BO", toEmployee := "AA",
      fromShift := "8.00", toShift := "11.30", status := .accepted } rfl
  exact ⟨h.1, h.2 (by decide)⟩

/-! ## Swap engine: creation, response, cancellation, row-level security -/

/-- The acting principal: the auth provider's display name
(`user.user_metadata.full_name`, used as employee code) together with the
`users.role = 'admin'` lookup (`checkAdminStatus`). -/
structure Principal where
  fullName : String
  isAdmin : Bool
  deriving DecidableEq, Repr

/-- The `USING` clause of the `"Users can update swap requests"` row-level
security policy on `shift_swaps_v2`
(`supabase/migrations/20250329174201_velvet_morning.sql`): an admin may update
any row; a regular user may update a row only while it is `pending` and they
are its `to_employee` (accept/reject) or its `from_employee` (cancel). -/
def rlsCanUpdate (p : Principal) (r : SwapRow) : Bool :=
  p.isAdmin ||
    (r.to_employee == p.fullName && r.status == .pending) ||
    (r.from_employee == p.fullName && r.status == .pending)

/-- A client `update({status}).eq('id', swapId)` against `shift_swaps_v2` as
the store executes it.  The update policy declares a `USING` clause but no
`WITH CHECK` clause, so PostgreSQL reuses the `USING` expression to check
each updated row's NEW value: rows failing `USING` on their old value are
simply not matched (matching zero rows is not an error), but if any matched
row's updated value fails the reused expression the whole statement raises a
row-level-security error and no row changes.  Returns the table contents and
whether the statement errored. -/
def dbUpdateStatus (p : Principal) (swapId : String) (newStatus : SwapStatus)
    (db : List SwapRow) : List SwapRow × Bool :=
  if db.any (fun r => r.id == swapId && rlsCanUpdate p r &&
      !rlsCanUpdate p { r with status := newStatus }) then
    (db, true)
  else
    (db.map (fun r =>
      if r.id == swapId && rlsCanUpdate p r then { r with status := newStatus } else r),
     false)

/-- `handleSwapResponse` (`ShiftList.tsx` lines 334-369): look the swap up in
the client's loaded list; silently return if absent; reject with a
user-visible error when a non-admin is not the swap's `toEmployee`; otherwise
issue the status update (`accepted` or `rejected`) against the store.  A
store rejection (the thrown `updateError`) reaches the catch block, which
shows the generic update-failure message.  Returns the new store contents and
the user-visible error, if any. -/
def handleSwapResponse (p : Principal) (swaps : List SwapRequest) (swapId : String)
    (accept : Bool) (db : List SwapRow) : List SwapRow × Option String :=
  match swaps.find? (fun s => s.id == swapId) with
  | none => (db, none)
  | some swap =>
      if !p.isAdmin && swap.toEmployee != p.fullName then
        (db, some "Non autorizzato a rispondere a questa richiesta")
      else
        let res := dbUpdateStatus p swapId (if accept then .accepted else .rejected) db
        (res.1,
         if res.2 then some "Errore nell\x27aggiornamento della richiesta di scambio"
         else none)

/-- `handleCancelSwap` (`ShiftList.tsx` lines 371-389): no client-side check
at all — it issues the cancelled-status update directly.  A store rejection is
caught but only logged: the function never calls `setError`, so the user sees
no error from this path, whether the statement matched zero rows or was
rejected by the reused row-level-security check. -/
def handleCancelSwap (p : Principal) (swapId : String)
    (db : List SwapRow) : List SwapRow × Option String :=
  ((dbUpdateStatus p swapId .cancelled db).1, none)

/-- Arguments the cell-click flow passes to `createSwapRequest`
(`ShiftList.tsx` line 444): display-format date, the two employee codes, the
two effective shifts, and the auto-accept flag. -/
structure CreateArgs where
  date : String
  fromEmployee : String
  toEmployee : String
  fromShift : String
  toShift : String
  autoAccept : Bool
  deriving DecidableEq, Repr

/-- `createSwapRequest` (`ShiftList.tsx` lines 444-469): inserts exactly one
row into `shift_swaps_v2`, the date normalised to `YYYY-MM-DD`, with status
`accepted` when `autoAccept` and `pending` otherwise.  `newId`/`now` stand for
the store-generated id and `created_at`. -/
def createSwapRequest (args : CreateArgs) (newId : String) (now : Nat)
    (db : List SwapRow) : List SwapRow :=
  db ++ [{ id := newId, date := formatToISO args.date,
           from_employee := args.fromEmployee, to_employee := args.toEmployee,
           from_shift := args.fromShift, to_shift := args.toShift,
           status := if args.autoAccept then .accepted else .pending,
           created_at := now }]

/-- The second-selection branch of `handleCellClick`
(`ShiftList.tsx` lines 238-263), given the already-selected first cell
`(firstRow, firstCol)` and the newly clicked `(row, col)`: clicking the same
cell clears the selection; a non-admin pairing across columns keeps the
selection; otherwise the call to `createSwapRequest` is made — for an admin
pairing two different dates, a single record anchored to the first cell's
date with `autoAccept = true`; otherwise a record on the clicked cell's date
with `autoAccept = isAdmin`.  Returns the arguments of that call, or `none`
when no swap is created.  (`col = 0` is rejected at the top of
`handleCellClick`, line 220.) -/
def handleCellClickSecond (isAdmin : Bool) (m : ShiftMatrix) (swaps : List SwapRequest)
    (firstRow firstCol row col : Nat) : Option CreateArgs :=
  if col == 0 then none
  else if firstRow == row && firstCol == col then none
  else if !isAdmin && firstCol != col then none
  else
    let fromEmployee := getCell m firstRow 0
    let toEmployee := getCell m row 0
    let fromDate := getCell m 0 firstCol
    let toDate := getCell m 0 col
    let date := getCell m 0 col
    let fromShift := getFinalShift m swaps firstRow firstCol
    let toShift := getFinalShift m swaps row col
    if isAdmin && fromDate != toDate then
      some { date := fromDate, fromEmployee := fromEmployee, toEmployee := toEmployee,
             fromShift := fromShift, toShift := toShift, autoAccept := true }
    else
      some { date := date, fromEmployee := fromEmployee, toEmployee := toEmployee,
             fromShift := fromShift, toShift := toShift, autoAccept := isAdmin }

/-- `handleSwapRequest` (`ShiftList.tsx` lines 283-332).  This function holds
the only `RI`/`NL` guard in the code base, but it is dead code: no call site
exists — `handleCellClick` calls `createSwapRequest` directly.  For a
non-admin it rejects when either shift is `RI` or `NL`, then rejects when
`matrix[0].findIndex(s => s === fromShift) === 0`; otherwise it inserts the
row exactly as `createSwapRequest` does. -/
def handleSwapRequest (isAdmin : Bool) (m : ShiftMatrix)
    (fromDate fromEmployee toEmployee fromShift toShift : String)
    (newId : String) (now : Nat) (db : List SwapRow) : List SwapRow × Option String :=
  if !isAdmin && (fromShift == "RI" || fromShift == "NL" ||
      toShift == "RI" || toShift == "NL") then
    (db, some "Non è possibile scambiare i turni RI e NL")
  else if !isAdmin && (m.getD 0 []).findIdx? (· == fromShift) == some 0 then
    (db, some "Non è possibile scambiare i turni della prima colonna")
  else
    (db ++ [{ id := newId, date := formatToISO fromDate,
              from_employee := fromEmployee, to_employee := toEmployee,
              from_shift := fromShift, to_shift := toShift,
              status := if isAdmin then .accepted else .pending,
              created_at := now }], none)

/-- A status update matches no row — and so succeeds without touching
anything — when every row carrying the targeted id fails the `USING` check on
its old value. -/
theorem dbUpdateStatus_noop (p : Principal) (swapId : String) (st : SwapStatus)
    (db : List SwapRow) (h : ∀ r ∈ db, r.id = swapId → rlsCanUpdate p r = false) :
    dbUpdateStatus p swapId st db = (db, false) := by
  unfold dbUpdateStatus
  have hany : (db.any fun r => r.id == swapId && rlsCanUpdate p r &&
      !rlsCanUpdate p { r with status := st }) = false := by
    rw [List.any_eq_false]
    intro r hr
    by_cases hid : r.id = swapId
    · simp [h r hr hid]
    · simp [hid]
  rw [hany]
  have hmap : (db.map fun r =>
      if r.id == swapId && rlsCanUpdate p r then { r with status := st } else r) = db := by
    have hpt : ∀ r ∈ db,
        (if r.id == swapId && rlsCanUpdate p r then { r with status := st } else r) = r := by
      intro r hr
      by_cases hid : r.id = swapId
      · simp [h r hr hid]
      · simp [hid]
    rw [List.map_congr_left hpt]
    exact List.map_id db
  rw [if_neg Bool.false_ne_true, hmap]

/-- For a non-admin principal, a status update towards any non-`pending`
value commits nothing: a matched row's new value necessarily fails the reused
`USING` expression (aborting the statement), and if no row is matched the
statement is a no-op. -/
theorem dbUpdateStatus_nonpending (p : Principal) (swapId : String) (st : SwapStatus)
    (db : List SwapRow) (hp : p.isAdmin = false) (hst : st ≠ .pending) :
    (dbUpdateStatus p swapId st db).1 = db := by
  unfold dbUpdateStatus
  have hnr : ∀ r : SwapRow, rlsCanUpdate p { r with status := st } = false := by
    intro r
    unfold rlsCanUpdate
    cases h : st
    · exact absurd h hst
    all_goals simp [hp]
  cases hb : db.any (fun r => r.id == swapId && rlsCanUpdate p r &&
      !rlsCanUpdate p { r with status := st }) with
  | true => simp [hb]
  | false =>
      simp only [hb, Bool.false_eq_true, if_false]
      have hall : ∀ r ∈ db,
          (if r.id == swapId && rlsCanUpdate p r then { r with status := st } else r) = r := by
        intro r hr
        have hfr := List.any_eq_false.mp hb r hr
        rw [hnr r] at hfr
        simp only [Bool.not_false, Bool.and_true] at hfr
        simp [hfr]
      show db.map _ = db
      rw [List.map_congr_left hall]
      exact List.map_id db

/-- For an admin principal the policy passes old and new rows alike, so the
update commits on every row carrying the id, whatever its old status. -/
theorem dbUpdateStatus_admin (p : Principal) (swapId : String) (st : SwapStatus)
    (db : List SwapRow) (hp : p.isAdmin = true) :
    dbUpdateStatus p swapId st db =
      (db.map (fun r => if r.id == swapId then { r with status := st } else r), false) := by
  unfold dbUpdateStatus
  have hany : (db.any fun r => r.id == swapId && rlsCanUpdate p r &&
      !rlsCanUpdate p { r with status := st }) = false := by
    rw [List.any_eq_false]
    intro r hr
    have : rlsCanUpdate p { r with status := st } = true := by
      unfold rlsCanUpdate; simp [hp]
    simp [this]
  rw [hany]
  have hpt : ∀ r ∈ db,
      (if r.id == swapId && rlsCanUpdate p r then { r with status := st } else r) =
        (if r.id == swapId then { r with status := st } else r) := by
    intro r hr
    have hrls : rlsCanUpdate p r = true := by
      unfold rlsCanUpdate; simp [hp]
    rw [hrls, Bool.and_true]
  rw [if_neg Bool.false_ne_true, List.map_congr_left hpt]

/-! ## C3: terminal states -/

/-- A store holding a single already-accepted swap. -/
def c3Db : List SwapRow :=
  [{ id := "s1", date := "2024-05-12", from_employee := "BO", to_employee := "AA",
     from_shift := "8.00", to_shift := "11.30", status := .accepted, created_at := 0 }]

/-- C3 counterexample: an admin's reject on an already-`accepted` swap goes
through — both the client handler (which never checks the current status) and
the row-level-security policy (which lets an admin update any row) allow it —
so the terminal record's status changes to `rejected`. -/
theorem C3_counterexample :
    c3Db.map (·.status) = [.accepted] ∧
    (handleSwapResponse { fullName := "ADMIN", isAdmin := true }
        (loadSwaps c3Db) "s1" false c3Db).1.map (·.status) = [.rejected] := by
  decide

/-- C3 amended: for a non-admin principal, any accept/reject/cancel attempt
against a record that is no longer `pending` leaves the store unchanged (the
row-level-security policy limits non-admin updates to `pending` rows); an
admin's attempt on a terminal record can still change its status. -/
theorem C3_terminal_noop_nonadmin (p : Principal) (swaps : List SwapRequest)
    (swapId : String) (accept : Bool) (db : List SwapRow)
    (hp : p.isAdmin = false)
    (hterm : ∀ r ∈ db, r.id = swapId → r.status ≠ .pending) :
    (handleSwapResponse p swaps swapId accept db).1 = db ∧
    (handleCancelSwap p swapId db).1 = db := by
  have hrls : ∀ r ∈ db, r.id = swapId → rlsCanUpdate p r = false := by
    intro r hr hid
    have hst := hterm r hr hid
    unfold rlsCanUpdate
    cases h : r.status
    · exact absurd h hst
    all_goals simp [hp, h]
  have hnoop := dbUpdateStatus_noop p swapId
  constructor
  · unfold handleSwapResponse
    cases swaps.find? (fun s => s.id == swapId) with
    | none => rfl
    | some swap =>
        by_cases hauth : (!p.isAdmin && swap.toEmployee != p.fullName) = true
        · simp [hauth]
        · simp [hauth, hnoop _ db hrls]
  · unfold handleCancelSwap
    simp [hnoop _ db hrls]

/-- Witness for C3's amended theorem: a non-admin reject attempt and a
non-admin cancel attempt on the accepted record of `c3Db` change nothing. -/
theorem C3_terminal_noop_witness :
    (handleSwapResponse { fullName := "AA", isAdmin := false }
        (loadSwaps c3Db) "s1" false c3Db).1 = c3Db ∧
    (handleCancelSwap { fullName := "AA", isAdmin := false } "s1" c3Db).1 = c3Db :=
  C3_terminal_noop_nonadmin { fullName := "AA", isAdmin := false }
    (loadSwaps c3Db) "s1" false c3Db rfl (by decide)

/-! ## C4: cancel authorization -/

/-- A store holding a single pending swap proposed by `BO` to `AA`. -/
def c4Db : List SwapRow :=
  [{ id := "s1", date := "2024-05-12", from_employee := "BO", to_employee := "AA",
     from_shift := "8.00", to_shift := "11.30", status := .pending, created_at := 0 }]

/-- C4 counterexample: the non-admin principal `AA` is neither admin nor the
swap's `fromEmployeeCode`, so by the claim their cancel attempt must "yield a
user-visible error and make no state mutation".  Tracing the code: the
record indeed stays `pending` — the update policy's reused `USING` expression
rejects the new `cancelled` row at the store — but no user-visible error
exists: `handleCancelSwap` has no client-side check, its catch block only
logs, and it never calls `setError`. -/
theorem C4_counterexample :
    (∀ r ∈ c4Db, r.from_employee ≠ "AA") ∧
    (handleCancelSwap { fullName := "AA", isAdmin := false } "s1" c4Db).1 = c4Db ∧
    (handleCancelSwap { fullName := "AA", isAdmin := false } "s1" c4Db).2 = none := by
  decide

/-- C4 amended: a cancel attempt never reports a user-visible error
(`handleCancelSwap` never calls `setError`); for a non-admin principal —
even the `fromEmployeeCode` party — the store commits nothing, because the
update policy has no `WITH CHECK` clause and its reused `USING` expression
rejects the updated row (status `cancelled` is no longer `pending`), or the
statement matches no row at all; an admin's cancel commits on every row
carrying the id. -/
theorem C4_cancel_amended (p : Principal) (swapId : String) (db : List SwapRow) :
    (handleCancelSwap p swapId db).2 = none ∧
    (p.isAdmin = false → (handleCancelSwap p swapId db).1 = db) ∧
    (p.isAdmin = true → (handleCancelSwap p swapId db).1 =
      db.map (fun r => if r.id == swapId then { r with status := SwapStatus.cancelled }
        else r)) := by
  refine ⟨rfl, ?_, ?_⟩
  · intro hp
    unfold handleCancelSwap
    exact dbUpdateStatus_nonpending p swapId .cancelled db hp (by decide)
  · intro hp
    unfold handleCancelSwap
    rw [dbUpdateStatus_admin p swapId .cancelled db hp]

/-- Witness for C4's amended theorem: an admin cancels the pending swap of
`c4Db`; the record flips to `cancelled` and no error is shown. -/
theorem C4_cancel_amended_witness :
    (handleCancelSwap { fullName := "ADMIN", isAdmin := true } "s1" c4Db).2 = none ∧
    (handleCancelSwap { fullName := "ADMIN", isAdmin := true } "s1" c4Db).1 =
      c4Db.map (fun r => if r.id == "s1" then { r with status := SwapStatus.cancelled }
        else r) := by
  have h := C4_cancel_amended { fullName := "ADMIN", isAdmin := true } "s1" c4Db
  exact ⟨h.1, h.2.2 rfl⟩

/-! ## C2: the RI/NL restriction on non-admin swap creation -/

/-- A fragment of the 2024-05-12 matrix (rows `BO` and `AA`, Sunday column),
in display form: row 0 dates, row 1 day names, data rows from index 2. -/
def c2Matrix : ShiftMatrix :=
  [["", "12/05/2024"], ["", "Dom"], ["BO", "RI"], ["AA", "NL"]]

/-- C2 evaluation at the failing input: the non-admin `BO` selects their own
`RI` cell and pairs it with `AA`'s `NL` cell in the same column.
`handleCellClick` hands the pair straight to `createSwapRequest`, which
inserts a `pending` record with `fromShift = "RI"` and reports no error; the
`RI`/`NL` guard would have rejected it, but it lives only in
`handleSwapRequest`, which no code path invokes. -/
theorem C2_dead_guard_eval :
    handleCellClickSecond false c2Matrix [] 2 1 3 1 =
      some { date := "12/05/2024", fromEmployee := "BO", toEmployee := "AA",
             fromShift := "RI", toShift := "NL", autoAccept := false } ∧
    createSwapRequest
      { date := "12/05/2024", fromEmployee := "BO", toEmployee := "AA",
        fromShift := "RI", toShift := "NL", autoAccept := false } "s1" 0 [] =
      [{ id := "s1", date := "2024-05-12", from_employee := "BO", to_employee := "AA",
         from_shift := "RI", to_shift := "NL", status := .pending, created_at := 0 }] ∧
    handleSwapRequest false c2Matrix "12/05/2024" "BO" "AA" "RI" "NL" "s1" 0 [] =
      ([], some "Non è possibile scambiare i turni RI e NL") := by
  refine ⟨?_, ?_, ?_⟩ <;> rfl

/-! ## C8: admin auto-accept and single cross-date record -/

/-- C8: whenever the second click produces a `createSwapRequest` call, the
auto-accept flag equals the admin flag, so the single inserted record's status
is `accepted` for an admin and `pending` otherwise; and when an admin pairs
two cells on different dates the one record is anchored to the first cell's
date and carries both cells' effective shifts. -/
theorem C8_admin_auto_accept (isAdmin : Bool) (m : ShiftMatrix) (swaps : List SwapRequest)
    (firstRow firstCol row col : Nat) (args : CreateArgs) (newId : String) (now : Nat)
    (db : List SwapRow)
    (h : handleCellClickSecond isAdmin m swaps firstRow firstCol row col = some args) :
    args.autoAccept = isAdmin ∧
    createSwapRequest args newId now db =
      db ++ [{ id := newId, date := formatToISO args.date,
               from_employee := args.fromEmployee, to_employee := args.toEmployee,
               from_shift := args.fromShift, to_shift := args.toShift,
               status := if isAdmin then .accepted else .pending,
               created_at := now }] ∧
    (isAdmin = true → getCell m 0 firstCol ≠ getCell m 0 col →
      args = { date := getCell m 0 firstCol, fromEmployee := getCell m firstRow 0,
               toEmployee := getCell m row 0,
               fromShift := getFinalShift m swaps firstRow firstCol,
               toShift := getFinalShift m swaps row col, autoAccept := true }) := by
  unfold handleCellClickSecond at h
  split at h
  · simp at h
  split at h
  · simp at h
  split at h
  · simp at h
  dsimp only at h
  split at h
  case isTrue hcond =>
    have hadm : isAdmin = true := by
      revert hcond; cases isAdmin <;> simp
    have hargs := Option.some.inj h
    subst hargs
    refine ⟨hadm.symm, ?_, fun _ _ => rfl⟩
    unfold createSwapRequest
    simp [hadm]
  case isFalse hcond =>
    have hargs := Option.some.inj h
    subst hargs
    refine ⟨rfl, rfl, ?_⟩
    intro hadm hdates
    exfalso
    rw [hadm] at hcond
    simp at hcond
    exact hdates hcond

/-- Two-date matrix fragment for the C8 witness. -/
def c8Matrix : ShiftMatrix :=
  [["", "12/05/2024", "13/05/2024"], ["", "Dom", "Lun"],
   ["BO", "RI", "8.00"], ["AA", "NL", "11.30"]]

/-- The arguments the admin's cross-date pairing on `c8Matrix` produces. -/
def c8Args : CreateArgs :=
  { date := "12/05/2024", fromEmployee := "BO", toEmployee := "AA",
    fromShift := "RI", toShift := "11.30", autoAccept := true }

/-- Witness for C8: an admin pairs `BO`'s Sunday cell with `AA`'s Monday cell;
one record anchored to Sunday's date is produced and inserted as `accepted`. -/
theorem C8_admin_auto_accept_witness :
    c8Args.autoAccept = true ∧
    createSwapRequest c8Args "s9" 5 [] =
      [] ++ [{ id := "s9", date := formatToISO c8Args.date,
               from_employee := c8Args.fromEmployee, to_employee := c8Args.toEmployee,
               from_shift := c8Args.fromShift, to_shift := c8Args.toShift,
               status := if true then .accepted else .pending, created_at := 5 }] ∧
    c8Args = { date := getCell c8Matrix 0 1, fromEmployee := getCell c8Matrix 2 0,
               toEmployee := getCell c8Matrix 3 0,
               fromShift := getFinalShift c8Matrix [] 2 1,
               toShift := getFinalShift c8Matrix [] 3 2, autoAccept := true } := by
  have h := C8_admin_auto_accept true c8Matrix [] 2 1 3 2 c8Args "s9" 5 [] (by decide)
  exact ⟨h.1, h.2.1, h.2.2 rfl (by decide)⟩

/-! ## Matrix upload: JSON document model, validator, persistence -/

/-- A parsed JSON value as JavaScript sees it, with `undef` for the
`undefined` returned by a missing property access. -/
inductive JValue
  | undefined
  | null
  | bool (b : Bool)
  | num (n : Int)
  | str (s : String)
  | arr (xs : List JValue)
  | obj (fields : List (String × JValue))

/-- JavaScript truthiness (`!x` is the negation of this). -/
def jsTruthy : JValue → Bool
  | .undefined => false
  | .null => false
  | .bool b => b
  | .num n => n != 0
  | .str s => s != ""
  | .arr _ => true
  | .obj _ => true

/-- JavaScript `typeof` (note `typeof null === 'object'` and arrays are
`'object'` too). -/
def jsTypeof : JValue → String
  | .undefined => "undefined"
  | .null => "object"
  | .bool _ => "boolean"
  | .num _ => "number"
  | .str _ => "string"
  | .arr _ => "object"
  | .obj _ => "object"

/-- Property access `v[k]`: the field's value on an object, otherwise
`undefined` (named properties of arrays, numbers, strings are not used by the
validator once the type checks have passed). -/
def getField : JValue → String → JValue
  | .obj fields, k =>
      match fields.find? (fun p => p.1 == k) with
      | some p => p.2
      | none => .undefined
  | _, _ => .undefined

/-- Is the value `undefined`? -/
def isUndefined : JValue → Bool
  | .undefined => true
  | _ => false

/-- `Array.isArray`. -/
def isArr : JValue → Bool
  | .arr _ => true
  | _ => false

/-- The element list of an array value. -/
def asArr : JValue → List JValue
  | .arr xs => xs
  | _ => []

/-- The string payload of a string value. -/
def asString : JValue → String
  | .str s => s
  | _ => ""

/-- The test `/^\d{4}-\d{2}-\d{2}$/.test(s)` (`MatrixUploader.tsx`
lines 66-67): exactly ten characters, digits in the date positions, dashes at
indices 4 and 7. -/
def matchesDateRegex (s : String) : Bool :=
  match s.data with
  | [y1, y2, y3, y4, c1, m1, m2, c2, d1, d2] =>
      y1.isDigit && y2.isDigit && y3.isDigit && y4.isDigit &&
      c1 == '-' && m1.isDigit && m2.isDigit && c2 == '-' && d1.isDigit && d2.isDigit
  | _ => false

/-- The seven optional per-day fields (`MatrixUploader.tsx` lines 41-43),
in source order. -/
def shiftFields : List String :=
  ["sunday_shift", "monday_shift", "tuesday_shift", "wednesday_shift",
   "thursday_shift", "friday_shift", "saturday_shift"]

/-- The per-day loop of `validateShiftData` (`MatrixUploader.tsx`
lines 45-49): a present day field must be a string. -/
def validateShiftFields (shift : JValue) (i : Nat) : List String → Except String Unit
  | [] => .ok ()
  | f :: rest =>
      if !isUndefined (getField shift f) && jsTypeof (getField shift f) != "string" then
        .error s!"Invalid shift data at index {i}: {f} must be a string if present"
      else validateShiftFields shift i rest

/-- `validateShiftData` (`MatrixUploader.tsx` lines 32-52): the element must
be a truthy object with a truthy string `employee_code`, and every present
day field must be a string.  Errors carry the element's index. -/
def validateShiftData (shift : JValue) (i : Nat) : Except String Unit :=
  if !jsTruthy shift || jsTypeof shift != "object" then
    .error s!"Invalid shift data at index {i}: must be an object"
  else if !jsTruthy (getField shift "employee_code") ||
      jsTypeof (getField shift "employee_code") != "string" then
    .error s!"Invalid shift data at index {i}: employee_code is required and must be a string"
  else validateShiftFields shift i shiftFields

/-- The `data.shifts.forEach(validateShiftData)` loop (`MatrixUploader.tsx`
lines 78-80): a thrown error aborts the whole traversal. -/
def validateAllShifts : List JValue → Nat → Except String Unit
  | [], _ => .ok ()
  | s :: rest, i =>
      match validateShiftData s i with
      | .error e => .error e
      | .ok _ => validateAllShifts rest (i + 1)

/-- `validateMatrixData` (`MatrixUploader.tsx` lines 54-83): the fail-fast
check chain over the untyped document. -/
def validateMatrixData (data : JValue) : Except String Unit :=
  if !jsTruthy data || jsTypeof data != "object" then
    .error "Invalid JSON format: must be an object"
  else if !jsTruthy (getField data "week_start_date") then
    .error "Invalid JSON format: week_start_date is missing"
  else if jsTypeof (getField data "week_start_date") != "string" then
    .error "Invalid JSON format: week_start_date must be a string"
  else if !matchesDateRegex (asString (getField data "week_start_date")) then
    .error "Invalid JSON format: week_start_date must be in YYYY-MM-DD format"
  else if !isArr (getField data "shifts") then
    .error "Invalid JSON format: shifts must be an array"
  else if (asArr (getField data "shifts")).length == 0 then
    .error "Invalid JSON format: shifts array cannot be empty"
  else validateAllShifts (asArr (getField data "shifts")) 0

/-- One row of the uploaded document, as typed by the source (`ShiftData`,
`MatrixUploader.tsx` lines 6-15): day fields are optional. -/
structure ShiftData where
  employee_code : String
  sunday_shift : Option String
  monday_shift : Option String
  tuesday_shift : Option String
  wednesday_shift : Option String
  thursday_shift : Option String
  friday_shift : Option String
  saturday_shift : Option String
  deriving DecidableEq, Repr

/-- The validated document (`MatrixData`, `MatrixUploader.tsx` lines 17-20). -/
structure MatrixData where
  week_start_date : String
  shifts : List ShiftData
  deriving DecidableEq, Repr

/-- The `data as MatrixData` reading of a document that passed validation. -/
def extractShiftData (v : JValue) : ShiftData :=
  { employee_code := asString (getField v "employee_code")
    sunday_shift := if isUndefined (getField v "sunday_shift") then none
      else some (asString (getField v "sunday_shift"))
    monday_shift := if isUndefined (getField v "monday_shift") then none
      else some (asString (getField v "monday_shift"))
    tuesday_shift := if isUndefined (getField v "tuesday_shift") then none
      else some (asString (getField v "tuesday_shift"))
    wednesday_shift := if isUndefined (getField v "wednesday_shift") then none
      else some (asString (getField v "wednesday_shift"))
    thursday_shift := if isUndefined (getField v "thursday_shift") then none
      else some (asString (getField v "thursday_shift"))
    friday_shift := if isUndefined (getField v "friday_shift") then none
      else some (asString (getField v "friday_shift"))
    saturday_shift := if isUndefined (getField v "saturday_shift") then none
      else some (asString (getField v "saturday_shift")) }

/-- The `data as MatrixData` cast performed by `handleFileUpload`
(`MatrixUploader.tsx` line 160). -/
def extractMatrixData (doc : JValue) : MatrixData :=
  { week_start_date := asString (getField doc "week_start_date")
    shifts := (asArr (getField doc "shifts")).map extractShiftData }

/-- A row of the `notifications` table (`createNotification`,
`ShiftList.tsx` lines 270-281). -/
structure Notification where
  id : String
  user_id : String
  message : String
  ntype : String
  related_swap_id : String
  deriving DecidableEq, Repr

/-- A row of the `shifts_schedule` table (`saveToDB` insert,
`MatrixUploader.tsx` lines 112-125). -/
structure ScheduleRow where
  week_start_date : String
  employee_code : String
  sunday_shift : Option String
  monday_shift : Option String
  tuesday_shift : Option String
  wednesday_shift : Option String
  thursday_shift : Option String
  friday_shift : Option String
  saturday_shift : Option String
  display_order : Nat
  deriving DecidableEq, Repr

/-- The three tables the upload touches. -/
structure Store where
  notifications : List Notification
  swaps : List SwapRow
  schedule : List ScheduleRow
  deriving DecidableEq, Repr

/-- The schedule row inserted for the `i`-th uploaded shift
(`MatrixUploader.tsx` lines 112-125): `display_order` is the loop index. -/
def mkScheduleRow (week : String) (s : ShiftData) (i : Nat) : ScheduleRow :=
  { week_start_date := week, employee_code := s.employee_code,
    sunday_shift := s.sunday_shift, monday_shift := s.monday_shift,
    tuesday_shift := s.tuesday_shift, wednesday_shift := s.wednesday_shift,
    thursday_shift := s.thursday_shift, friday_shift := s.friday_shift,
    saturday_shift := s.saturday_shift, display_order := i }

/-- The insert loop of `saveToDB` (`MatrixUploader.tsx` lines 110-128), with a
failure oracle for the store: `fails i` means the `i`-th insert is rejected.
A failure throws out of the loop — rows already inserted stay inserted. -/
def insertLoop (week : String) (fails : Nat → Bool) :
    Nat → List ScheduleRow → List ShiftData → List ScheduleRow × Option String
  | _, store, [] => (store, none)
  | i, store, s :: rest =>
      if fails i then (store, some "insert failed")
      else insertLoop week fails (i + 1) (store ++ [mkScheduleRow week s i]) rest

/-- `saveToDB` (`MatrixUploader.tsx` lines 85-129): reject non-`ADMIN`
uploaders; delete every notification and every swap (the
`.filter('id','not.is',null)` clauses match all rows, `id` being a non-null
primary key); delete the schedule rows of the target week only; then insert
the new rows one by one with sequential `display_order`. -/
def saveToDB (userFullName : String) (fails : Nat → Bool) (data : MatrixData)
    (store : Store) : Store × Option String :=
  if userFullName != "ADMIN" then
    (store, some "Solo gli amministratori possono caricare la matrice dei turni")
  else
    let kept := store.schedule.filter (fun r => r.week_start_date != data.week_start_date)
    let res := insertLoop data.week_start_date fails 0 kept data.shifts
    ({ notifications := [], swaps := [], schedule := res.1 }, res.2)

/-- The validate-then-save pipeline of `handleFileUpload`
(`MatrixUploader.tsx` lines 152-162): a validation error surfaces as the
user-visible error and nothing is written. -/
def processUpload (userFullName : String) (fails : Nat → Bool) (doc : JValue)
    (store : Store) : Store × Option String :=
  match validateMatrixData doc with
  | .error e => (store, some e)
  | .ok _ => saveToDB userFullName fails (extractMatrixData doc) store

/-- Specification of the rows the insert loop writes when nothing fails:
one `ScheduleRow` per uploaded shift, `display_order` counting up from `i`. -/
def mkRows (week : String) : Nat → List ShiftData → List ScheduleRow
  | _, [] => []
  | i, s :: rest => mkScheduleRow week s i :: mkRows week (i + 1) rest

/-- When no insert in range fails, the loop appends exactly the `mkRows`
rows and reports no error. -/
theorem insertLoop_ok (week : String) (fails : Nat → Bool) :
    ∀ (l : List ShiftData) (i : Nat) (st : List ScheduleRow),
      (∀ j, j < l.length → fails (i + j) = false) →
      insertLoop week fails i st l = (st ++ mkRows week i l, none) := by
  intro l
  induction l with
  | nil => intro i st _; simp [insertLoop, mkRows]
  | cons s rest ih =>
      intro i st h
      have h0 : fails i = false := by simpa using h 0 (by simp)
      have hrest : ∀ j, j < rest.length → fails (i + 1 + j) = false := by
        intro j hj
        have := h (j + 1) (by simpa using Nat.succ_lt_succ hj)
        have harith : i + (j + 1) = i + 1 + j := by omega
        rwa [harith] at this
      unfold insertLoop
      rw [h0]
      simp only [Bool.false_eq_true, if_false]
      rw [ih (i + 1) (st ++ [mkScheduleRow week s i]) hrest]
      simp [mkRows]

/-- The `display_order` values written from index `i` are `i, i+1, …`. -/
theorem mkRows_map_display (week : String) :
    ∀ (l : List ShiftData) (i : Nat),
      (mkRows week i l).map (·.display_order) = List.range' i l.length := by
  intro l
  induction l with
  | nil => intro i; simp [mkRows]
  | cons s rest ih => intro i; simp [mkRows, mkScheduleRow, List.range', ih]

/-- The inserted rows keep the uploaded employee codes in order. -/
theorem mkRows_map_code (week : String) :
    ∀ (l : List ShiftData) (i : Nat),
      (mkRows week i l).map (·.employee_code) = l.map (·.employee_code) := by
  intro l
  induction l with
  | nil => intro i; simp [mkRows]
  | cons s rest ih => intro i; simp [mkRows, mkScheduleRow, ih]

/-- Every inserted row targets the uploaded week. -/
theorem mkRows_week (week : String) :
    ∀ (l : List ShiftData) (i : Nat) (r : ScheduleRow),
      r ∈ mkRows week i l → r.week_start_date = week := by
  intro l
  induction l with
  | nil => intro i r hr; cases hr
  | cons s rest ih =>
      intro i r hr
      cases hr with
      | head => rfl
      | tail _ h => exact ih (i + 1) r h

/-! ## C6: effects of a successful upload -/

/-- C6: a successful admin upload for week `W` with `N` rows empties the
notification and swap tables entirely, keeps exactly the schedule rows of
other weeks (unchanged, in order), and appends the `N` uploaded rows in their
original order with `display_order` `0..N-1`. -/
theorem C6_upload_effects (name : String) (fails : Nat → Bool) (data : MatrixData)
    (store : Store) (hname : name = "ADMIN")
    (hfails : ∀ j, j < data.shifts.length → fails j = false) :
    (saveToDB name fails data store).2 = none ∧
    (saveToDB name fails data store).1.notifications = [] ∧
    (saveToDB name fails data store).1.swaps = [] ∧
    (saveToDB name fails data store).1.schedule =
      store.schedule.filter (fun r => r.week_start_date != data.week_start_date) ++
        mkRows data.week_start_date 0 data.shifts ∧
    (saveToDB name fails data store).1.schedule.filter
        (fun r => r.week_start_date != data.week_start_date) =
      store.schedule.filter (fun r => r.week_start_date != data.week_start_date) ∧
    (mkRows data.week_start_date 0 data.shifts).map (·.display_order) =
      List.range data.shifts.length ∧
    (mkRows data.week_start_date 0 data.shifts).map (·.employee_code) =
      data.shifts.map (·.employee_code) := by
  subst hname
  have hfails0 : ∀ j, j < data.shifts.length → fails (0 + j) = false := by
    intro j hj; rw [Nat.zero_add]; exact hfails j hj
  have hloop := insertLoop_ok data.week_start_date fails data.shifts 0
    (store.schedule.filter (fun r => r.week_start_date != data.week_start_date)) hfails0
  have hsave : saveToDB "ADMIN" fails data store =
      ({ notifications := [], swaps := [],
         schedule := store.schedule.filter
             (fun r => r.week_start_date != data.week_start_date) ++
           mkRows data.week_start_date 0 data.shifts }, none) := by
    unfold saveToDB
    rw [if_neg (by decide)]
    dsimp only
    rw [hloop]
  rw [hsave]
  refine ⟨rfl, rfl, rfl, rfl, ?_, ?_, mkRows_map_code _ _ _⟩
  · simp only [List.filter_append]
    have h1 : (mkRows data.week_start_date 0 data.shifts).filter
        (fun r => r.week_start_date != data.week_start_date) = [] := by
      rw [List.filter_eq_nil_iff]
      intro r hr
      simp [mkRows_week _ _ _ _ hr]
    have h2 : (store.schedule.filter
          (fun r => r.week_start_date != data.week_start_date)).filter
        (fun r => r.week_start_date != data.week_start_date) =
        store.schedule.filter (fun r => r.week_start_date != data.week_start_date) := by
      rw [List.filter_filter]
      apply List.filter_congr
      intro a _
      simp [Bool.and_self]
    rw [h1, h2, List.append_nil]
  · rw [mkRows_map_display, List.range_eq_range']

/-- Uploaded row `BO` for the C6/C7 inputs. -/
def c7BO : ShiftData :=
  { employee_code := "BO", sunday_shift := some "RI", monday_shift := some "8.00",
    tuesday_shift := some "05.55+", wednesday_shift := some "05.55",
    thursday_shift := some "06.30", friday_shift := some "05.55",
    saturday_shift := some "NL" }

/-- Uploaded row `AA` for the C6/C7 inputs. -/
def c7AA : ShiftData :=
  { employee_code := "AA", sunday_shift := some "NL", monday_shift := some "11.30",
    tuesday_shift := some "11.30+", wednesday_shift := some "06.30",
    thursday_shift := some "8.00", friday_shift := some "06.30",
    saturday_shift := some "RI" }

/-- A two-row upload for week 2024-05-12. -/
def c7Data : MatrixData :=
  { week_start_date := "2024-05-12", shifts := [c7BO, c7AA] }

/-- A schedule row of a different week, already in the store. -/
def c7OtherRow : ScheduleRow :=
  { week_start_date := "2024-05-05", employee_code := "CA",
    sunday_shift := some "06.30", monday_shift := some "05.00+",
    tuesday_shift := some "00.00", wednesday_shift := some "RI",
    thursday_shift := some "NL", friday_shift := some "15.55",
    saturday_shift := some "11.30", display_order := 0 }

/-- A store holding one other-week schedule row, a notification, and a swap. -/
def c7Store : Store :=
  { notifications := [{ id := "n1", user_id := "u1", message := "m",
                        ntype := "swap_request", related_swap_id := "s1" }],
    swaps := [{ id := "s1", date := "2024-05-05", from_employee := "CA",
                to_employee := "LP", from_shift := "06.30", to_shift := "11.30",
                status := .pending, created_at := 0 }],
    schedule := [c7OtherRow] }

/-- Witness for C6: uploading `c7Data` over `c7Store` with no insert failure
clears notifications and swaps, keeps the 2024-05-05 row, and appends the two
new rows with `display_order` 0 and 1. -/
theorem C6_upload_effects_witness :
    (saveToDB "ADMIN" (fun _ => false) c7Data c7Store).2 = none ∧
    (saveToDB "ADMIN" (fun _ => false) c7Data c7Store).1.notifications = [] ∧
    (saveToDB "ADMIN" (fun _ => false) c7Data c7Store).1.swaps = [] ∧
    (saveToDB "ADMIN" (fun _ => false) c7Data c7Store).1.schedule =
      c7Store.schedule.filter (fun r => r.week_start_date != c7Data.week_start_date) ++
        mkRows c7Data.week_start_date 0 c7Data.shifts ∧
    (saveToDB "ADMIN" (fun _ => false) c7Data c7Store).1.schedule.filter
        (fun r => r.week_start_date != c7Data.week_start_date) =
      c7Store.schedule.filter (fun r => r.week_start_date != c7Data.week_start_date) ∧
    (mkRows c7Data.week_start_date 0 c7Data.shifts).map (·.display_order) =
      List.range c7Data.shifts.length ∧
    (mkRows c7Data.week_start_date 0 c7Data.shifts).map (·.employee_code) =
      c7Data.shifts.map (·.employee_code) :=
  C6_upload_effects "ADMIN" (fun _ => false) c7Data c7Store rfl
    (fun _ _ => rfl)

/-! ## C7: atomicity of the insert loop -/

/-- C7 evaluation at the failing input: uploading `c7Data` when the store
rejects the insert of row index 1 leaves the store in a partially-written
state — the deletes have happened, row 0 (`BO`) is inserted, row 1 (`AA`) is
not — while the caller is told the upload failed. -/
theorem C7_partial_write_eval :
    (saveToDB "ADMIN" (fun j => j == 1) c7Data c7Store).2 = some "insert failed" ∧
    (saveToDB "ADMIN" (fun j => j == 1) c7Data c7Store).1.schedule =
      [c7OtherRow, mkScheduleRow "2024-05-12" c7BO 0] ∧
    mkScheduleRow "2024-05-12" c7AA 1 ∉
      (saveToDB "ADMIN" (fun j => j == 1) c7Data c7Store).1.schedule ∧
    (saveToDB "ADMIN" (fun j => j == 1) c7Data c7Store).1.schedule ≠
      c7Store.schedule := by
  refine ⟨rfl, rfl, by decide, by decide⟩

/-! ## C5: the validator rejects malformed documents -/

/-- The `forEach` traversal surfaces the error of the first invalid element:
if element `k` fails and all elements before it pass, the traversal started
at index `i` reports element `k`'s error. -/
theorem validateAllShifts_err (e : String) :
    ∀ (l : List JValue) (i k : Nat) (shift : JValue),
      l.get? k = some shift →
      (∀ j s', j < k → l.get? j = some s' → validateShiftData s' (i + j) = .ok ()) →
      validateShiftData shift (i + k) = .error e →
      validateAllShifts l i = .error e := by
  intro l
  induction l with
  | nil => intro i k shift hget _ _; simp at hget
  | cons s rest ih =>
      intro i k shift hget hpre herr
      cases k with
      | zero =>
          simp only [List.get?_cons_zero, Option.some.injEq] at hget
          have hs : validateShiftData s i = .error e := by
            rw [hget, ← Nat.add_zero i]; exact herr
          unfold validateAllShifts
          rw [hs]
      | succ k' =>
          have h0 : validateShiftData s i = .ok () := by
            have := hpre 0 s (Nat.succ_pos k') (by simp)
            rwa [Nat.add_zero] at this
          have hget' : rest.get? k' = some shift := by simpa using hget
          have hpre' : ∀ j s', j < k' → rest.get? j = some s' →
              validateShiftData s' (i + 1 + j) = .ok () := by
            intro j s' hj hg
            have := hpre (j + 1) s' (Nat.succ_lt_succ hj) (by simpa using hg)
            have harith : i + (j + 1) = i + 1 + j := by omega
            rwa [harith] at this
          have herr' : validateShiftData shift (i + 1 + k') = .error e := by
            have harith : i + (k' + 1) = i + 1 + k' := by omega
            rwa [harith] at herr
          unfold validateAllShifts
          rw [h0]
          exact ih (i + 1) k' shift hget' hpre' herr'

/-- C5: every malformed-document class listed by the spec is rejected with
its own distinguishable error message, and a rejected document causes no
storage mutation at all.  The cases follow the validator's fail-fast order;
`w` abbreviates the document's `week_start_date` value and `sh` its `shifts`
value. -/
theorem C5_validator_rejects (doc : JValue) (store : Store) (name : String)
    (fails : Nat → Bool) :
    ((jsTruthy doc = false ∨ jsTypeof doc ≠ "object") →
      validateMatrixData doc = .error "Invalid JSON format: must be an object") ∧
    (jsTruthy doc = true → jsTypeof doc = "object" →
      jsTruthy (getField doc "week_start_date") = false →
      validateMatrixData doc = .error "Invalid JSON format: week_start_date is missing") ∧
    (jsTruthy doc = true → jsTypeof doc = "object" →
      jsTruthy (getField doc "week_start_date") = true →
      jsTypeof (getField doc "week_start_date") ≠ "string" →
      validateMatrixData doc = .error "Invalid JSON format: week_start_date must be a string") ∧
    (jsTruthy doc = true → jsTypeof doc = "object" →
      jsTruthy (getField doc "week_start_date") = true →
      jsTypeof (getField doc "week_start_date") = "string" →
      matchesDateRegex (asString (getField doc "week_start_date")) = false →
      validateMatrixData doc =
        .error "Invalid JSON format: week_start_date must be in YYYY-MM-DD format") ∧
    (jsTruthy doc = true → jsTypeof doc = "object" →
      jsTruthy (getField doc "week_start_date") = true →
      jsTypeof (getField doc "week_start_date") = "string" →
      matchesDateRegex (asString (getField doc "week_start_date")) = true →
      isArr (getField doc "shifts") = false →
      validateMatrixData doc = .error "Invalid JSON format: shifts must be an array") ∧
    (jsTruthy doc = true → jsTypeof doc = "object" →
      jsTruthy (getField doc "week_start_date") = true →
      jsTypeof (getField doc "week_start_date") = "string" →
      matchesDateRegex (asString (getField doc "week_start_date")) = true →
      getField doc "shifts" = JValue.arr [] →
      validateMatrixData doc = .error "Invalid JSON format: shifts array cannot be empty") ∧
    (∀ (k : Nat) (shift : JValue),
      jsTruthy doc = true → jsTypeof doc = "object" →
      jsTruthy (getField doc "week_start_date") = true →
      jsTypeof (getField doc "week_start_date") = "string" →
      matchesDateRegex (asString (getField doc "week_start_date")) = true →
      isArr (getField doc "shifts") = true →
      (asArr (getField doc "shifts")).length ≠ 0 →
      (asArr (getField doc "shifts")).get? k = some shift →
      (∀ j s', j < k → (asArr (getField doc "shifts")).get? j = some s' →
        validateShiftData s' j = .ok ()) →
      jsTruthy shift = true → jsTypeof shift = "object" →
      (jsTruthy (getField shift "employee_code") = false ∨
        jsTypeof (getField shift "employee_code") ≠ "string") →
      validateMatrixData doc =
        .error s!"Invalid shift data at index {k}: employee_code is required and must be a string") ∧
    (∀ e, validateMatrixData doc = .error e →
      processUpload name fails doc store = (store, some e)) ∧
    List.Nodup
      ["Invalid JSON format: must be an object",
       "Invalid JSON format: week_start_date is missing",
       "Invalid JSON format: week_start_date must be a string",
       "Invalid JSON format: week_start_date must be in YYYY-MM-DD format",
       "Invalid JSON format: shifts must be an array",
       "Invalid JSON format: shifts array cannot be empty",
       "Invalid shift data at index 0: employee_code is required and must be a string"] := by
  refine ⟨?_, ?_, ?_, ?_, ?_, ?_, ?_, ?_, by decide⟩
  · intro h
    unfold validateMatrixData
    rcases h with h | h <;> simp [h]
  · intro h1 h2 h3
    unfold validateMatrixData
    simp [h1, h2, h3]
  · intro h1 h2 h3 h4
    unfold validateMatrixData
    simp [h1, h2, h3, h4]
  · intro h1 h2 h3 h4 h5
    unfold validateMatrixData
    simp [h1, h2, h3, h4, h5]
  · intro h1 h2 h3 h4 h5 h6
    unfold validateMatrixData
    simp [h1, h2, h3, h4, h5, h6]
  · intro h1 h2 h3 h4 h5 h6
    unfold validateMatrixData
    simp [h1, h2, h3, h4, h5, h6, asArr, isArr]
  · intro k shift h1 h2 h3 h4 h5 h6 h7 hget hpre hsh1 hsh2 hbad
    have hchain : validateMatrixData doc =
        validateAllShifts (asArr (getField doc "shifts")) 0 := by
      unfold validateMatrixData
      simp [h1, h2, h3, h4, h5, h6, h7]
    rw [hchain]
    have herr : validateShiftData shift (0 + k) =
        .error s!"Invalid shift data at index {k}: employee_code is required and must be a string" := by
      rw [Nat.zero_add]
      unfold validateShiftData
      have hc1 : (!jsTruthy shift || jsTypeof shift != "object") = false := by
        simp [hsh1, hsh2]
      rw [hc1]
      have hc2 : (!jsTruthy (getField shift "employee_code") ||
          jsTypeof (getField shift "employee_code") != "string") = true := by
        rcases hbad with h | h <;> simp [h]
      rw [hc2]
      simp
    exact validateAllShifts_err _ _ 0 k shift hget
      (by intro j s' hj hg; rw [Nat.zero_add]; exact hpre j s' hj hg) herr
  · intro e he
    unfold processUpload
    rw [he]

/-- Witness for C5 at the concrete document `null`: validation fails with the
object-shape error and the store is untouched. -/
theorem C5_validator_rejects_witness :
    validateMatrixData JValue.null = .error "Invalid JSON format: must be an object" ∧
    processUpload "ADMIN" (fun _ => false) JValue.null c7Store =
      (c7Store, some "Invalid JSON format: must be an object") := by
  have h := C5_validator_rejects JValue.null c7Store "ADMIN" (fun _ => false)
  have hv := h.1 (Or.inl rfl)
  exact ⟨hv, h.2.2.2.2.2.2.2.1 _ hv⟩

/-! ## C10: which swap the resolver picks after deduplication -/

/-- A pending request sharing its composite key with `c10r2`, created last. -/
def c10r1 : SwapRow :=
  { id := "w3", date := "2024-05-12", from_employee := "AA", to_employee := "BO",
    from_shift := "8.00", to_shift := "15.55", status := .pending, created_at := 2 }

/-- The most recently created **accepted** swap matching (`2024-05-12`,
`AA`). -/
def c10r2 : SwapRow :=
  { id := "w2", date := "2024-05-12", from_employee := "AA", to_employee := "BO",
    from_shift := "8.00", to_shift := "15.55", status := .accepted, created_at := 1 }

/-- An older accepted swap matching the same cell under a different key. -/
def c10r0 : SwapRow :=
  { id := "w1", date := "2024-05-12", from_employee := "AA", to_employee := "CP",
    from_shift := "8.00", to_shift := "05.55", status := .accepted, created_at := 0 }

/-- The fetched list, ordered by `created_at` descending. -/
def c10Rows : List SwapRow := [c10r1, c10r2, c10r0]

/-- C10 counterexample: two accepted swaps match cell (`2024-05-12`, `AA`);
the most recently created one is `c10r2` (shift contribution `"15.55"`), but
the pending `c10r1` shares its composite key and was created later, so
deduplication drops `c10r2` and the resolver answers from the older `c10r0`
(`"05.55"`) instead. -/
theorem C10_counterexample :
    c10Rows.Pairwise (fun a b => b.created_at < a.created_at) ∧
    (c10Rows.filter (fun r => swapMatches "AA" "2024-05-12" (toSwapRequest r))).length = 2 ∧
    swapMatches "AA" "2024-05-12" (toSwapRequest c10r2) = true ∧
    (∀ r ∈ c10Rows, swapMatches "AA" "2024-05-12" (toSwapRequest r) = true →
      r.created_at ≤ c10r2.created_at) ∧
    (if c10r2.from_employee == "AA" then c10r2.to_shift else c10r2.from_shift) = "15.55" ∧
    getFinalShiftCore "8.00" "AA" "2024-05-12" (loadSwaps c10Rows) = "05.55" := by
  decide

/-- Scanning the deduplicated list finds exactly the row `M` when the input
is sorted by `created_at` strictly descending, `M` satisfies the predicate,
no satisfying row is newer than `M`, no row of `M`'s composite key is newer
than `M`, and `M`'s key has not been seen yet. -/
theorem dedupAux_find (p : SwapRow → Bool) :
    ∀ (rows : List SwapRow) (seen : List String) (M : SwapRow),
      rows.Pairwise (fun a b => b.created_at < a.created_at) →
      M ∈ rows → p M = true →
      (∀ r ∈ rows, p r = true → r.created_at ≤ M.created_at) →
      (∀ r ∈ rows, dedupKey r = dedupKey M → r.created_at ≤ M.created_at) →
      dedupKey M ∉ seen →
      (dedupAux rows seen).find? p = some M := by
  intro rows
  induction rows with
  | nil => intro seen M _ hM; cases hM
  | cons s rest ih =>
      intro seen M hsort hM hpM hmax hkey hseen
      have hsort' := (List.pairwise_cons.mp hsort)
      cases hM with
      | head =>
          unfold dedupAux
          rw [if_neg hseen]
          rw [List.find?_cons_of_pos _ hpM]
      | tail _ hMrest =>
          have hlt : M.created_at < s.created_at := hsort'.1 M hMrest
          have hkeyne : dedupKey s ≠ dedupKey M := by
            intro heq
            have := hkey s (List.mem_cons_self s rest) heq
            omega
          have hps : p s = false := by
            cases hp : p s
            · rfl
            · have := hmax s (List.mem_cons_self s rest) hp
              omega
          have hmax' : ∀ r ∈ rest, p r = true → r.created_at ≤ M.created_at :=
            fun r hr hp => hmax r (List.mem_cons_of_mem s hr) hp
          have hkey' : ∀ r ∈ rest, dedupKey r = dedupKey M → r.created_at ≤ M.created_at :=
            fun r hr he => hkey r (List.mem_cons_of_mem s hr) he
          unfold dedupAux
          by_cases hmem : dedupKey s ∈ seen
          · rw [if_pos hmem]
            exact ih seen M hsort'.2 hMrest hpM hmax' hkey' hseen
          · rw [if_neg hmem]
            rw [List.find?_cons_of_neg _ (by simp [hps])]
            refine ih (dedupKey s :: seen) M hsort'.2 hMrest hpM hmax' hkey' ?_
            intro hmem'
            rcases List.mem_cons.mp hmem' with h | h
            · exact hkeyne h.symm
            · exact hseen h

/-- C10 amended: the resolver answers from the most recently created matching
accepted swap **provided** that swap is also the most recent fetched record
bearing its composite key (date, fromEmployee, toEmployee); a later
non-accepted record with the same key shadows it during deduplication (see
the counterexample).  Timestamps are assumed pairwise distinct (the list is
strictly descending). -/
theorem C10_most_recent_amended (rows : List SwapRow) (emp date base : String)
    (M : SwapRow)
    (hsort : rows.Pairwise (fun a b => b.created_at < a.created_at))
    (hM : M ∈ rows)
    (hmatch : swapMatches emp date (toSwapRequest M) = true)
    (hmax : ∀ r ∈ rows, swapMatches emp date (toSwapRequest r) = true →
      r.created_at ≤ M.created_at)
    (hkey : ∀ r ∈ rows, dedupKey r = dedupKey M → r.created_at ≤ M.created_at) :
    getFinalShiftCore base emp date (loadSwaps rows) =
      (if M.from_employee == emp then M.to_shift else M.from_shift) := by
  have hfind := dedupAux_find (fun r => swapMatches emp date (toSwapRequest r))
    rows [] M hsort hM hmatch hmax hkey (by simp)
  unfold getFinalShiftCore loadSwaps
  rw [List.find?_map]
  have hcomp : (dedupAux rows []).find? (swapMatches emp date ∘ toSwapRequest) = some M :=
    hfind
  rw [hcomp]
  simp [toSwapRequest]

/-- Witness for C10's amended theorem: two accepted matching swaps with
distinct keys, no shadowing records; the resolver answers from the newer
one. -/
theorem C10_most_recent_witness :
    getFinalShiftCore "8.00" "AA" "2024-05-12" (loadSwaps [c10r2, c10r0]) = "15.55" := by
  have h := C10_most_recent_amended [c10r2, c10r0] "AA" "2024-05-12" "8.00" c10r2
    (by decide) (by decide) (by decide) (by decide) (by decide)
  simpa using h
